import Mathlib

/-!
Verification of the receipt-OCR extraction pipeline of the household-ledger
backend (`backend/app/services/ocr_service.py`, `backend/app/services/file_service.py`,
`backend/app/api/receipts.py`).

The Python code is shallowly embedded: JSON values are an inductive type,
`json.loads` is passed in as an oracle parameter (it is standard-library code,
not part of the repository), numbers are `Rat`, and the effectful pieces
(remote vision-model calls, sleeps, the filesystem, the document store) are
made explicit as run traces and state values.
-/

/-- A JSON value, the result type of the `json.loads` oracle.  Numbers are
modelled as rationals (Python would produce `int`/`float`). -/
inductive Json where
  | null
  | bool (b : Bool)
  | num (q : Rat)
  | str (s : String)
  | arr (elems : List Json)
  | obj (fields : List (String × Json))

/-- Python whitespace characters stripped by `str.strip()` (ASCII range). -/
def pyWhitespace (c : Char) : Bool :=
  c = ' ' || c = '\t' || c = '\n' || c = '\x0d' || c = '\x0b' || c = '\x0c'

/-- Embedding of Python `str.strip()` (no arguments): removes leading and
trailing whitespace. -/
def pyStrip (s : String) : String :=
  String.mk (((s.toList.dropWhile pyWhitespace).reverse.dropWhile pyWhitespace).reverse)

/-- Whether the character list `p` is an initial segment of `l`. -/
def listLeads : List Char → List Char → Bool
  | [], _ => true
  | _ :: _, [] => false
  | a :: ps, b :: ls => a = b && listLeads ps ls

/-- Embedding of Python `str.startswith`. -/
def pyStartsWith (s p : String) : Bool :=
  listLeads p.toList s.toList

/-- Embedding of Python `str.endswith`. -/
def pyEndsWith (s p : String) : Bool :=
  listLeads p.toList.reverse s.toList.reverse

/-- Embedding of Python slicing `s[n:]` for a nonnegative index. -/
def pyDrop (s : String) (n : Nat) : String :=
  String.mk (s.toList.drop n)

/-- Embedding of Python slicing `s[:-n]` for a positive `n` not larger than the
length (the only way it is used in the source). -/
def pyDropRight (s : String) (n : Nat) : String :=
  String.mk (s.toList.take (s.toList.length - n))

/-- Lines 131-143 of `ocr_service.py` (`parse_ocr_response`): strip whitespace,
remove a leading markdown fence (```json or ```), remove a trailing fence,
strip again. -/
def stripFences (response_text : String) : String :=
  let text := pyStrip response_text
  let text :=
    if pyStartsWith text "```json" then pyDrop text 7
    else if pyStartsWith text "```" then pyDrop text 3
    else text
  let text := if pyEndsWith text "```" then pyDropRight text 3 else text
  pyStrip text

/-- Numeric value of a list of decimal digits. -/
def digitsVal (cs : List Char) : Nat :=
  cs.foldl (fun n c => n * 10 + (c.toNat - '0'.toNat)) 0

/-- Embedding of CPython `float(str)` on the decimal forms `[+-]digits`,
`[+-]digits.digits`, `[+-]digits.`, `[+-].digits`, with surrounding
whitespace ignored.  CPython additionally accepts exponent notation,
`inf`/`nan` and digit-group underscores; those forms are not modelled and are
treated as coercion failures here (no claim depends on them). -/
def pyFloatOfString (s : String) : Option Rat :=
  let cs := ((s.toList.dropWhile pyWhitespace).reverse.dropWhile pyWhitespace).reverse
  let (sign, cs) : Int × List Char :=
    match cs with
    | '+' :: rest => (1, rest)
    | '-' :: rest => (-1, rest)
    | rest => (1, rest)
  let intPart := cs.takeWhile Char.isDigit
  let rest := cs.dropWhile Char.isDigit
  match rest with
  | [] =>
    if intPart.isEmpty then none
    else some (sign * (digitsVal intPart : Int))
  | '.' :: frac =>
    if frac.all Char.isDigit && !(intPart.isEmpty && frac.isEmpty) then
      some ((sign : Rat) * ((digitsVal intPart : Rat) +
        (digitsVal frac : Rat) / ((10 : Rat) ^ frac.length)))
    else none
  | _ => none

/-- Embedding of Python `float(x)`: succeeds on numbers and booleans, on
suitable strings, and fails (`TypeError`) on `None`, lists and dicts. -/
def pyFloat : Json → Option Rat
  | .num q => some q
  | .bool b => some (if b then 1 else 0)
  | .str s => pyFloatOfString s
  | _ => none

/-- Embedding of Python `str(x)` as used on item names.  For a string it is the
identity — the only case any claim depends on.  The renderings of composite
values abbreviate CPython `repr` output. -/
def pyStr : Json → String
  | .str s => s
  | .null => "None"
  | .bool true => "True"
  | .bool false => "False"
  | .num q => if q.den = 1 then toString q.num else toString q
  | .arr _ => "[...]"
  | .obj _ => "\x7b...\x7d"

/-- The sanitized extraction result built by `parse_ocr_response`
(lines 149-191 of `ocr_service.py`).  `date`, `store`, `category` and
`rawText` are stored without type validation, so they remain raw JSON values;
`confidence` is `none` exactly when the response object maps `"confidence"`
to JSON `null` (Python then leaves the field as `None`). -/
structure OcrResult where
  date : Json
  store : Json
  items : List (String × Rat)
  total : Option Rat
  category : Json
  confidence : Option Rat
  rawText : Json

/-- Lines 148-191 of `parse_ocr_response`: defaulting and per-field coercion
of a parsed JSON object (`data.get` on a parsed dict is `List.lookup` here). -/
def sanitizeFields (fields : List (String × Json)) : OcrResult :=
  let dateV := (List.lookup "date" fields).getD .null
  let storeV := (List.lookup "store" fields).getD .null
  let itemsV := (List.lookup "items" fields).getD (.arr [])
  let totalV := (List.lookup "total" fields).getD .null
  let confV := (List.lookup "confidence" fields).getD (.num 0)
  let rawV := (List.lookup "rawText" fields).getD (.str "")
  let categoryV := (List.lookup "category" fields).getD .null
  let total : Option Rat :=
    match totalV with
    | .null => none
    | v => pyFloat v
  let confidence : Option Rat :=
    match confV with
    | .null => none
    | v =>
      some (match pyFloat v with
        | some q => max 0 (min 1 q)
        | none => 0)
  let itemsList : List Json :=
    match itemsV with
    | .arr l => l
    | _ => []
  let items : List (String × Rat) :=
    itemsList.filterMap (fun it =>
      match it with
      | .obj f =>
        match List.lookup "name" f, List.lookup "price" f with
        | some nv, some pv => (pyFloat pv).map (fun q => (pyStr nv, q))
        | _, _ => none
      | _ => none)
  ⟨dateV, storeV, items, total, categoryV, confidence, rawV⟩

/-- Embedding of `parse_ocr_response` (lines 117-199 of `ocr_service.py`).
`loads` is the `json.loads` oracle: `none` models `json.JSONDecodeError`.
A decode failure raises `ValueError` directly; a non-object parse makes
`data.get` raise `AttributeError`, caught by the final handler and re-raised
as `ValueError`.  Both are `.error ()` here.  On an object, every per-field
coercion failure is handled inside the function (inner `try/except` blocks),
so the call returns normally. -/
def parse_ocr_response (loads : String → Option Json) (response_text : String) :
    Except Unit OcrResult :=
  let text := stripFences response_text
  match loads text with
  | none => .error ()
  | some (Json.obj fields) => .ok (sanitizeFields fields)
  | some _ => .error ()

example : pyStrip "  ab " = "ab" := by decide
example : stripFences "```json\n\x7b\x7d\n```" = "\x7b\x7d" := by decide
example : pyFloatOfString "abc" = none := rfl
example : pyFloat .null = none := rfl

/-- Outcome of one vision-model attempt (the body of the `try` block at lines
260-300 of `ocr_service.py`), as seen by the exception handlers:
`success` is a non-empty `response.choices[0].message.content`;
`emptyContent` is a falsy content (the `raise ValueError` at line 294);
`timeoutErr` is `asyncio.TimeoutError` from `asyncio.wait_for`;
`connectionErr` is `APITimeoutError`/`APIConnectionError`;
`apiErr` is `APIError`; `unexpectedErr` is any other exception. -/
inductive AttemptOutcome where
  | success (text : String)
  | emptyContent
  | timeoutErr
  | connectionErr (msg : String)
  | apiErr (msg : String)
  | unexpectedErr (msg : String)

/-- The `last_error` string stored by the three retry-classified handlers
(lines 302-308 and 320-322); `none` for outcomes that leave the loop. -/
def lastErrorOf (timeoutSec : Nat) : AttemptOutcome → Option String
  | .timeoutErr => some ("OCR 처리 타임아웃 (" ++ toString timeoutSec ++ "초 초과)")
  | .connectionErr m => some ("API 연결 오류: " ++ m)
  | .unexpectedErr m => some ("예상치 못한 오류: " ++ m)
  | _ => none

/-- Whether the outcome is handled by a retrying handler of the loop
(`asyncio.TimeoutError`, `APITimeoutError`/`APIConnectionError`, or the
catch-all `except Exception`). -/
def retriesOn : AttemptOutcome → Bool
  | .timeoutErr => true
  | .connectionErr _ => true
  | .unexpectedErr _ => true
  | _ => false

/-- The two error classes the spec calls retryable: the per-call timeout and
the API connection/transport errors. -/
def claimRetryable : AttemptOutcome → Bool
  | .timeoutErr => true
  | .connectionErr _ => true
  | _ => false

/-- How a run of `process_receipt_image` can fail; each constructor is a
`ValueError` raised by the function, carrying the data interpolated into its
message. -/
inductive OcrFailure where
  | notConfigured
  | fileNotFound (path : String)
  | encodeFailed
  | apiError (msg : String)
  | emptyResponse
  | parseError
  | exhausted (lastErr : Option String)

/-- The `str(e)` of the `ValueError` carried by each failure.  For
`encodeFailed` and `parseError` the Python message interpolates the inner
exception text, which the embedding abstracts away (no claim depends on it). -/
def ocrFailureMessage : OcrFailure → String
  | .notConfigured =>
    "OpenAI API 키가 설정되지 않았습니다. OPENAI_API_KEY 환경 변수를 설정해주세요."
  | .fileNotFound p => "이미지 파일을 찾을 수 없습니다: " ++ p
  | .encodeFailed => "이미지 파일을 읽을 수 없습니다."
  | .apiError m => "OpenAI API 호출 실패: " ++ m
  | .emptyResponse => "OpenAI API가 빈 응답을 반환했습니다."
  | .parseError => "OCR 응답을 파싱할 수 없습니다."
  | .exhausted le => "OCR 처리에 실패했습니다: " ++ le.getD "None"

/-- Observable trace of a run of `process_receipt_image`: how many
vision-model calls were made, the seconds passed to `asyncio.sleep` in order,
and the returned result or raised failure. -/
structure RetryTrace where
  calls : Nat
  sleeps : List Nat
  result : Except OcrFailure OcrResult

/-- The retry loop of `process_receipt_image` (lines 259-332 of
`ocr_service.py`), over the remaining attempt numbers
(`for attempt in range(1, max_retries + 1)`).  `f` gives the outcome of the
attempt with a given number, `lastErr` is the `last_error` variable, and
`calls`/`sleeps` accumulate the trace.  A successful parse returns; `APIError`
and `ValueError` (empty content, parse failure) are re-raised immediately; the
retry-classified handlers record `last_error` and, when further attempts
remain (`attempt < max_retries`, i.e. the rest of the range is non-empty),
sleep `attempt * 2` seconds; an exhausted range raises the `exhausted`
failure. -/
def retryGo (loads : String → Option Json) (f : Nat → AttemptOutcome) (timeoutSec : Nat) :
    List Nat → Option String → Nat → List Nat → RetryTrace
  | [], lastErr, calls, sleeps => ⟨calls, sleeps, .error (.exhausted lastErr)⟩
  | a :: rest, _lastErr, calls, sleeps =>
    match f a with
    | .success text =>
      match parse_ocr_response loads text with
      | .ok r => ⟨calls + 1, sleeps, .ok r⟩
      | .error _ => ⟨calls + 1, sleeps, .error .parseError⟩
    | .emptyContent => ⟨calls + 1, sleeps, .error .emptyResponse⟩
    | .apiErr m => ⟨calls + 1, sleeps, .error (.apiError m)⟩
    | .timeoutErr =>
      retryGo loads f timeoutSec rest (lastErrorOf timeoutSec .timeoutErr) (calls + 1)
        (if rest.isEmpty then sleeps else sleeps ++ [a * 2])
    | .connectionErr m =>
      retryGo loads f timeoutSec rest (lastErrorOf timeoutSec (.connectionErr m)) (calls + 1)
        (if rest.isEmpty then sleeps else sleeps ++ [a * 2])
    | .unexpectedErr m =>
      retryGo loads f timeoutSec rest (lastErrorOf timeoutSec (.unexpectedErr m)) (calls + 1)
        (if rest.isEmpty then sleeps else sleeps ++ [a * 2])

/-- Preconditions checked by `process_receipt_image` before the retry loop:
API key configured (lines 228-232), image file exists (lines 242-243), and
the image encodes without error (lines 246-251). -/
structure OcrConfig where
  apiKeyConfigured : Bool
  fileExists : Bool
  encodeOk : Bool
  imagePath : String

/-- Embedding of `process_receipt_image` (lines 202-332 of `ocr_service.py`).
A missing API key, a missing file, or an encoding failure raises before any
vision-model call; otherwise the retry loop runs over attempt numbers
`1..maxRetries`. -/
def process_receipt_image (cfg : OcrConfig) (loads : String → Option Json)
    (f : Nat → AttemptOutcome) (maxRetries timeoutSec : Nat) : RetryTrace :=
  if cfg.apiKeyConfigured = false then ⟨0, [], .error .notConfigured⟩
  else if cfg.fileExists = false then ⟨0, [], .error (.fileNotFound cfg.imagePath)⟩
  else if cfg.encodeOk = false then ⟨0, [], .error .encodeFailed⟩
  else retryGo loads f timeoutSec (List.range' 1 maxRetries) none 0 []

/-- A configuration whose preconditions all pass. -/
def okCfg : OcrConfig := ⟨true, true, true, "receipts/2024/01/receipt_20240101_000000.jpg"⟩

/-- An HTTP error response (`fastapi.HTTPException`): status code and detail
message. -/
structure HttpError where
  status : Nat
  detail : String
  deriving DecidableEq

/-- Embedding of FastAPI `UploadFile` as consumed by `file_service.py`:
declared filename, declared content type, and the byte length of the body
(the bytes themselves do not matter to any validated property). -/
structure PyUploadFile where
  filename : Option String
  content_type : Option String
  size : Nat

/-- Line 19 of `file_service.py`. -/
def ALLOWED_EXTENSIONS : List String := [".jpg", ".jpeg", ".png", ".heic", ".webp"]

/-- Lines 22-29 of `file_service.py`. -/
def ALLOWED_MIME_TYPES : List String :=
  ["image/jpeg", "image/jpg", "image/png", "image/heic", "image/heif", "image/webp"]

/-- Lowercase a string character-wise (Python `str.lower` on the ASCII range
used by extensions). -/
def strLower (s : String) : String :=
  String.mk (s.toList.map Char.toLower)

/-- Index of the last occurrence of `c`, if any. -/
def lastIdxOf (c : Char) : List Char → Option Nat
  | [] => none
  | x :: xs =>
    match lastIdxOf c xs with
    | some j => some (j + 1)
    | none => if x = c then some 0 else none

/-- The final component of a POSIX path (`pathlib.PurePath.name`): trailing
separators are ignored and the part after the last remaining separator is
taken. -/
def pathFinalName (filename : String) : String :=
  String.mk (((filename.toList.reverse.dropWhile (fun c => c = '/')).takeWhile
    (fun c => c ≠ '/')).reverse)

/-- Embedding of `pathlib.PurePosixPath(filename).suffix`: on the final path
component `name`, with `i` the index of the last dot, the suffix is `name[i:]`
when `0 < i < len(name) - 1` and empty otherwise. -/
def pathSuffix (filename : String) : String :=
  let cs := (pathFinalName filename).toList
  match lastIdxOf '.' cs with
  | none => ""
  | some i => if 0 < i ∧ i < cs.length - 1 then String.mk (cs.drop i) else ""

/-- Embedding of `get_file_extension` (lines 32-42 of `file_service.py`). -/
def get_file_extension (filename : String) : String :=
  strLower (pathSuffix filename)

/-- Embedding of `validate_file` (lines 45-72 of `file_service.py`): returns
the raised `HTTPException`, or `none` when the file passes.  A missing or
empty filename is falsy in Python; an empty declared content type is also
falsy, so the MIME check is skipped for it.  The extension-error detail
interpolates a set iteration order, which the embedding abstracts. -/
def validate_file (file : PyUploadFile) : Option HttpError :=
  match file.filename with
  | none => some ⟨400, "파일명이 없습니다."⟩
  | some fn =>
    if fn = "" then some ⟨400, "파일명이 없습니다."⟩
    else if (ALLOWED_EXTENSIONS.contains (get_file_extension fn)) = false then
      some ⟨400, "허용되지 않는 파일 형식입니다."⟩
    else
      match file.content_type with
      | some ct =>
        if ct ≠ "" ∧ (ALLOWED_MIME_TYPES.contains ct) = false then
          some ⟨400, "허용되지 않는 MIME 타입입니다: " ++ ct⟩
        else none
      | none => none

/-- Embedding of `generate_filename` (lines 75-89): the UTC timestamp is
passed in as a pre-rendered `YYYYMMDD_HHMMSS` string. -/
def generate_filename (timestamp : String) (original_filename : String) : String :=
  "receipt_" ++ timestamp ++ get_file_extension original_filename

/-- Embedding of `os.path.join(a, b)` on POSIX for the cases the services
exercise: an absolute `b` replaces `a`; otherwise the parts are joined with a
separator unless `a` is empty or already ends with one. -/
def osPathJoin (a b : String) : String :=
  if pyStartsWith b "/" then b
  else if a = "" || pyEndsWith a "/" then a ++ b
  else a ++ "/" ++ b

/-- Durable upload storage: the set of stored files as full path / byte-length
pairs. -/
structure Storage where
  files : List (String × Nat)
  deriving DecidableEq

/-- Embedding of `save_uploaded_file` (lines 121-170 of `file_service.py`)
composed with `get_storage_path` (lines 92-118).  The wall clock is passed in
as the rendered year, month and timestamp.  Validation and the size checks all
happen before the write at line 158, so every rejection leaves the storage
unchanged; on success the file is written under
`receipts/<year>/<month>/<generated name>` and the storage-relative path is
returned. -/
def save_uploaded_file (max_file_size : Nat) (upload_dir year month timestamp : String)
    (st : Storage) (file : PyUploadFile) : Except HttpError String × Storage :=
  match validate_file file with
  | some e => (.error e, st)
  | none =>
    if file.size > max_file_size then
      (.error ⟨400, "파일 크기가 너무 큽니다."⟩, st)
    else if file.size = 0 then
      (.error ⟨400, "빈 파일은 업로드할 수 없습니다."⟩, st)
    else
      let filename := generate_filename timestamp (file.filename.getD "")
      let relative_path := "receipts/" ++ year ++ "/" ++ month ++ "/" ++ filename
      let full_path := osPathJoin upload_dir relative_path
      (.ok relative_path, ⟨(full_path, file.size) :: st.files⟩)

/-- Embedding of `delete_file` (lines 173-200 of `file_service.py`).  The
filesystem is the list of existing full paths; `removeOk` is whether the
`os.remove` call succeeds when reached.  Every exception is caught inside the
function (it is total and returns `False` on any failure), so the embedding
returns the boolean outcome together with the filesystem after the call. -/
def delete_file (upload_dir : String) (fs : List String) (removeOk : Bool)
    (file_path : String) : Bool × List String :=
  let full_path := osPathJoin upload_dir file_path
  if fs.contains full_path then
    if removeOk then (true, fs.erase full_path) else (false, fs)
  else (false, fs)

/-- What the pipeline does after the upload endpoint has saved the file:
the OCR stage returns a result, raises a `ValueError` (every failure of
`process_receipt_image` is one), raises an `HTTPException`, or raises some
other unexpected exception. -/
inductive PostSaveOutcome where
  | ok (r : OcrResult)
  | valueError (failure : OcrFailure)
  | httpException (e : HttpError)
  | unexpected

/-- Whether the post-save stage fails. -/
def PostSaveOutcome.isFailure : PostSaveOutcome → Bool
  | .ok _ => false
  | _ => true

/-- Result of one run of the upload endpoint: the HTTP response (a sanitized
result plus the storage-relative path, or an error), and the path passed to
`delete_file` when the failure cleanup ran. -/
structure EndpointRun where
  response : Except HttpError (OcrResult × String)
  deleteCalledOn : Option String

/-- Embedding of the `/api/receipt/ocr` handler `process_receipt_ocr`
(lines 25-96 of `api/receipts.py`).  `save` is the outcome of
`save_uploaded_file` (an `HTTPException` there propagates with no cleanup,
since `saved_file_path` is still unset); `post` gives the outcome of the
OCR stage for the saved path.  On a post-save failure the handler deletes the
saved file — ignoring the deletion outcome — and then surfaces the error:
`ValueError` becomes a 400 carrying `str(e)`, an `HTTPException` is re-raised,
and anything else becomes a generic 500. -/
def process_receipt_ocr (upload_dir : String) (fs : List String) (removeOk : Bool)
    (save : Except HttpError String) (post : String → PostSaveOutcome) :
    EndpointRun × List String :=
  match save with
  | .error e => (⟨.error e, none⟩, fs)
  | .ok path =>
    match post path with
    | .ok r => (⟨.ok (r, path), none⟩, fs)
    | .valueError failure =>
      let d := delete_file upload_dir fs removeOk path
      (⟨.error ⟨400, ocrFailureMessage failure⟩, some path⟩, d.2)
    | .httpException e =>
      let d := delete_file upload_dir fs removeOk path
      (⟨.error e, some path⟩, d.2)
    | .unexpected =>
      let d := delete_file upload_dir fs removeOk path
      (⟨.error ⟨500, "OCR 처리 중 오류가 발생했습니다."⟩, some path⟩, d.2)

/-- Embedding of the `/api/receipt/save` request body (`ReceiptSaveRequest`
in `schemas/receipt.py`); `items` is accepted by the schema but never read by
the handler. -/
structure ReceiptSaveRequest where
  date : String
  store : Option String
  total : Rat
  category : String
  memo : Option String
  receiptImagePath : Option String
  type : String

/-- A persisted transaction document as built by `save_receipt_transaction`
(creation/update timestamps are server-assigned and elided). -/
structure TransactionDoc where
  type : String
  date : Int
  amount : Rat
  category : String
  memo : String
  receiptImagePath : Option String

/-- Embedding of the `/api/receipt/save` handler `save_receipt_transaction`
(lines 99-178 of `api/receipts.py`).  The category store is the list of
existing category names (`find_one` by exact name); the transaction store is
the list of persisted documents; `parseDate` is an oracle for the
`datetime.fromisoformat` / `strptime` date parsing (standard-library code),
returning `none` when both formats fail.  The category check runs first; an
unknown category raises a 400 before anything is inserted. -/
def save_receipt_transaction (categories : List String) (txs : List TransactionDoc)
    (parseDate : String → Option Int) (req : ReceiptSaveRequest) :
    Except HttpError TransactionDoc × List TransactionDoc :=
  if (categories.contains req.category) = false then
    (.error ⟨400, "\x27" ++ req.category ++ "\x27 카테고리가 존재하지 않습니다."⟩, txs)
  else
    match parseDate req.date with
    | none =>
      (.error ⟨400, "날짜 형식이 올바르지 않습니다. YYYY-MM-DD 형식을 사용해주세요."⟩, txs)
    | some d =>
      if req.type = "expense" ∨ req.type = "income" then
        let baseMemo := (req.memo).getD ""
        let memo :=
          match req.store with
          | some s =>
            if s = "" then baseMemo
            else if baseMemo = "" then "상호: " ++ s
            else baseMemo ++ " | " ++ ("상호: " ++ s)
          | none => baseMemo
        let doc : TransactionDoc :=
          ⟨req.type, d, req.total, req.category, memo, req.receiptImagePath⟩
        (.ok doc, txs ++ [doc])
      else
        (.error ⟨400, "type은 \x27expense\x27 또는 \x27income\x27이어야 합니다."⟩, txs)

/-- A `json.loads` oracle that fails on every input. -/
def loadsNone : String → Option Json := fun _ => none

/-- A `json.loads` oracle that parses every input as a bare array. -/
def loadsArr : String → Option Json := fun _ => some (.arr [])

/-- C5: `parse_ocr_response` fails (raises `ValueError`, the spec's
`UnparseableResponse`) whenever the fence-stripped text is not valid JSON
(the `loads` oracle fails), and whenever it is valid JSON but not a JSON
object. -/
theorem C5_unparseable_response (loads : String → Option Json) (text : String) :
    (loads (stripFences text) = none → parse_ocr_response loads text = .error ())
    ∧ (∀ j, loads (stripFences text) = some j → (∀ fs, j ≠ Json.obj fs) →
        parse_ocr_response loads text = .error ()) := by
  constructor
  · intro h
    simp [parse_ocr_response, h]
  · intro j hj hne
    cases j with
    | obj fs => exact absurd rfl (hne fs)
    | null => simp [parse_ocr_response, hj]
    | bool b => simp [parse_ocr_response, hj]
    | num q => simp [parse_ocr_response, hj]
    | str s => simp [parse_ocr_response, hj]
    | arr l => simp [parse_ocr_response, hj]

/-- Witness for C5: a non-JSON text fails, and a bare JSON array fails. -/
theorem C5_witness :
    parse_ocr_response loadsNone "this is not json" = .error ()
    ∧ parse_ocr_response loadsArr "[1, 2]" = .error () :=
  ⟨(C5_unparseable_response loadsNone "this is not json").1 rfl,
   (C5_unparseable_response loadsArr "[1, 2]").2 (.arr []) rfl
     (fun _ h => Json.noConfusion h)⟩

/-- C10: `delete_file` is total (every exception is caught and turned into
`False`); it returns `True` exactly when the joined path exists and the
removal succeeds, in which case the file is removed; any `False` outcome
leaves the filesystem unchanged. -/
theorem C10_delete_file_total (upload_dir : String) (fs : List String)
    (removeOk : Bool) (file_path : String) :
    ((delete_file upload_dir fs removeOk file_path).1 = true ↔
      fs.contains (osPathJoin upload_dir file_path) = true ∧ removeOk = true)
    ∧ ((delete_file upload_dir fs removeOk file_path).1 = false →
        (delete_file upload_dir fs removeOk file_path).2 = fs)
    ∧ ((delete_file upload_dir fs removeOk file_path).1 = true →
        (delete_file upload_dir fs removeOk file_path).2 =
          fs.erase (osPathJoin upload_dir file_path)) := by
  unfold delete_file
  by_cases h1 : osPathJoin upload_dir file_path ∈ fs <;>
    by_cases h2 : removeOk = true <;> simp [h1, h2]

/-- Witness for C10: an existing file is removed (returns `True`); a missing
file returns `False` and leaves the filesystem unchanged. -/
theorem C10_witness :
    (delete_file "./uploads" ["./uploads/receipts/2024/01/a.jpg"] true
      "receipts/2024/01/a.jpg").1 = true
    ∧ (delete_file "./uploads" [] true "receipts/2024/01/a.jpg").2 = [] :=
  ⟨(C10_delete_file_total "./uploads" ["./uploads/receipts/2024/01/a.jpg"] true
      "receipts/2024/01/a.jpg").1.mpr ⟨rfl, rfl⟩,
   (C10_delete_file_total "./uploads" [] true "receipts/2024/01/a.jpg").2.1 rfl⟩

/-- C8: a save request whose category name is not in the category store fails
with the unknown-category 400 error and leaves the transaction store
unchanged. -/
theorem C8_unknown_category (categories : List String) (txs : List TransactionDoc)
    (parseDate : String → Option Int) (req : ReceiptSaveRequest)
    (h : categories.contains req.category = false) :
    save_receipt_transaction categories txs parseDate req =
      (.error ⟨400, "\x27" ++ req.category ++ "\x27 카테고리가 존재하지 않습니다."⟩, txs) := by
  have h2 : req.category ∉ categories := by simpa using h
  simp [save_receipt_transaction, h2]

/-- Witness for C8 at a concrete request and store. -/
theorem C8_witness :
    save_receipt_transaction ["교통비"] [] (fun _ => some 0)
      ⟨"2024-03-15", none, 5, "식비", none, none, "expense"⟩ =
      (.error ⟨400, "\x27식비\x27 카테고리가 존재하지 않습니다."⟩, []) :=
  C8_unknown_category ["교통비"] [] (fun _ => some 0)
    ⟨"2024-03-15", none, 5, "식비", none, none, "expense"⟩ rfl

/-- C4: whenever the upload endpoint has saved a file and a later stage fails
(`ValueError` from the OCR stage, an `HTTPException`, or an unexpected error),
the handler calls `delete_file` on the saved path and surfaces an error
response that does not depend on whether the deletion succeeded (a deletion
failure is swallowed); the filesystem afterwards is exactly the deletion's
result. -/
theorem C4_cleanup_before_error (upload_dir : String) (fs : List String)
    (removeOk : Bool) (path : String) (post : String → PostSaveOutcome)
    (h : (post path).isFailure = true) :
    (process_receipt_ocr upload_dir fs removeOk (.ok path) post).1.deleteCalledOn = some path
    ∧ (∃ e, (process_receipt_ocr upload_dir fs removeOk (.ok path) post).1.response = .error e
        ∧ (process_receipt_ocr upload_dir fs true (.ok path) post).1.response = .error e
        ∧ (process_receipt_ocr upload_dir fs false (.ok path) post).1.response = .error e)
    ∧ (process_receipt_ocr upload_dir fs removeOk (.ok path) post).2 =
        (delete_file upload_dir fs removeOk path).2 := by
  cases hp : post path with
  | ok r => simp [PostSaveOutcome.isFailure, hp] at h
  | valueError failure =>
    refine ⟨?_, ⟨⟨400, ocrFailureMessage failure⟩, ?_, ?_, ?_⟩, ?_⟩ <;>
      simp [process_receipt_ocr, hp]
  | httpException e =>
    refine ⟨?_, ⟨e, ?_, ?_, ?_⟩, ?_⟩ <;> simp [process_receipt_ocr, hp]
  | unexpected =>
    refine ⟨?_, ⟨⟨500, "OCR 처리 중 오류가 발생했습니다."⟩, ?_, ?_, ?_⟩, ?_⟩ <;>
      simp [process_receipt_ocr, hp]

/-- Witness for C4 at a concrete failing run. -/
theorem C4_witness :
    (process_receipt_ocr "./uploads" ["./uploads/receipts/2024/01/a.jpg"] false
      (.ok "receipts/2024/01/a.jpg") (fun _ => .unexpected)).1.deleteCalledOn =
      some "receipts/2024/01/a.jpg" :=
  (C4_cleanup_before_error "./uploads" ["./uploads/receipts/2024/01/a.jpg"] false
    "receipts/2024/01/a.jpg" (fun _ => .unexpected) rfl).1

/-- C3 (amended): when extraction fails after retries are exhausted, the
upload endpoint responds with status 400 (not 5xx) whose detail is the
`ValueError` message `OCR 처리에 실패했습니다: <last retryable error>` — the
detailed upstream cause is included in the response body, not only logged. -/
theorem C3_exhausted_returns_400_with_detail (upload_dir : String) (fs : List String)
    (removeOk : Bool) (path : String) (lastErr : Option String) :
    (process_receipt_ocr upload_dir fs removeOk (.ok path)
        (fun _ => .valueError (.exhausted lastErr))).1.response =
      .error ⟨400, "OCR 처리에 실패했습니다: " ++ lastErr.getD "None"⟩ := rfl

/-- The vision-model stub of the C3 counterexample: every attempt raises an
`APIConnectionError` with message `boom`. -/
def connBoom : Nat → AttemptOutcome := fun _ => .connectionErr "boom"

/-- The OCR stage of the C3 counterexample: the actual outcome of
`process_receipt_image` with the `connBoom` stub under default settings. -/
def c3post : String → PostSaveOutcome := fun _ =>
  match (process_receipt_image okCfg loadsNone connBoom 3 30).result with
  | .error failure => .valueError failure
  | .ok r => .ok r

/-- Counterexample to C3 as stated: after retries are exhausted on connection
errors, the endpoint responds with status 400 — not a 5xx — and the detail
carries the upstream cause (`boom`), not a generic message. -/
theorem C3_counterexample :
    (process_receipt_ocr "./uploads" ["./uploads/receipts/2024/01/receipt_20240101_000000.jpg"]
        true (.ok "receipts/2024/01/receipt_20240101_000000.jpg") c3post).1.response =
      .error ⟨400, "OCR 처리에 실패했습니다: API 연결 오류: boom"⟩
    ∧ (400 : Nat) < 500 :=
  ⟨rfl, by decide⟩

/-- The response text of the C1 failing input (a well-formed JSON object with
a `null` confidence, a negative total and a negative item price). -/
def c1text : String :=
  "\x7b\"confidence\": null, \"total\": -5, \"items\": [\x7b\"name\": \"a\", \"price\": -1\x7d]\x7d"

/-- The parse of `c1text` as `json.loads` would produce it. -/
def c1fields : List (String × Json) :=
  [("confidence", .null), ("total", .num (-5)),
   ("items", .arr [.obj [("name", .str "a"), ("price", .num (-1))]])]

/-- The `json.loads` oracle of the C1 failing input. -/
def c1loads : String → Option Json :=
  fun s => if s = c1text then some (.obj c1fields) else none

/-- C1 evaluation at the failing input: `parse_ocr_response` returns a result
whose `confidence` is `None` (not a number in `[0,1]`), whose `total` is `-5`
(negative), and whose single retained item has price `-1` (negative),
contradicting the claimed invariants (which the repository's own
`ReceiptOCRResponse` schema asserts via `ge=0`/`le=1` field bounds and a
non-optional `confidence: float`). -/
theorem C1_sanitizer_gap_eval :
    ((parse_ocr_response c1loads c1text).toOption.map
        (fun r => (r.confidence, r.total, r.items))) =
      some (none, some (-5), [("a", (-1 : Rat))])
    ∧ ((-5 : Rat) < 0 ∧ (-1 : Rat) < 0) :=
  ⟨rfl, by decide⟩

/-- The spec's retryable classification implies the loop's retrying handlers
apply (the loop additionally retries unexpected errors). -/
theorem retriesOn_of_claimRetryable (o : AttemptOutcome) (h : claimRetryable o = true) :
    retriesOn o = true := by
  cases o <;> simp_all [claimRetryable, retriesOn]

/-- If every attempt in the window `[a, a + k)` is handled by a retrying
handler, the loop consumes the window — one vision-model call and one backoff
sleep of `n * 2` seconds per attempt `n` of the window — and continues with
the remaining non-empty attempt range. -/
theorem retryGo_skip (loads : String → Option Json) (f : Nat → AttemptOutcome)
    (t : Nat) :
    ∀ (k a : Nat) (le : Option String) (calls : Nat) (sleeps : List Nat) (m : Nat),
      1 ≤ m → (∀ n, a ≤ n → n < a + k → retriesOn (f n) = true) →
      ∃ le2, retryGo loads f t (List.range' a (k + m)) le calls sleeps =
        retryGo loads f t (List.range' (a + k) m) le2 (calls + k)
          (sleeps ++ (List.range' a k).map (fun n => n * 2)) := by
  intro k
  induction k with
  | zero =>
    intro a le calls sleeps m _ _
    exact ⟨le, by simp⟩
  | succ k ih =>
    intro a le calls sleeps m hm hall
    have hfa : retriesOn (f a) = true := hall a le_rfl (by omega)
    have hrange : List.range' a (k + 1 + m) = a :: List.range' (a + 1) (k + m) := by
      have e : k + 1 + m = (k + m) + 1 := by omega
      rw [e, List.range'_succ]
    have hrestne : (List.range' (a + 1) (k + m)).isEmpty = false := by
      rw [List.isEmpty_eq_false_iff_exists_mem]
      exact ⟨a + 1, List.mem_range'.mpr ⟨0, by omega, by omega⟩⟩
    have hwin : ∀ n, a + 1 ≤ n → n < a + 1 + k → retriesOn (f n) = true :=
      fun n h1n h2n => hall n (by omega) (by omega)
    have harith : ∀ (le2 : Option String),
        retryGo loads f t (List.range' (a + 1 + k) m) le2 (calls + 1 + k)
            ((sleeps ++ [a * 2]) ++ (List.range' (a + 1) k).map (fun n => n * 2)) =
          retryGo loads f t (List.range' (a + (k + 1)) m) le2 (calls + (k + 1))
            (sleeps ++ (List.range' a (k + 1)).map (fun n => n * 2)) := by
      intro le2
      have e1 : a + 1 + k = a + (k + 1) := by omega
      have e2 : calls + 1 + k = calls + (k + 1) := by omega
      have e3 : (sleeps ++ [a * 2]) ++ (List.range' (a + 1) k).map (fun n => n * 2) =
          sleeps ++ (List.range' a (k + 1)).map (fun n => n * 2) := by
        rw [List.range'_succ, List.map_cons, List.append_assoc]
        rfl
      rw [e1, e2, e3]
    cases hv : f a with
    | success s => rw [hv] at hfa; simp [retriesOn] at hfa
    | emptyContent => rw [hv] at hfa; simp [retriesOn] at hfa
    | apiErr msg => rw [hv] at hfa; simp [retriesOn] at hfa
    | timeoutErr =>
      obtain ⟨le2, h2⟩ :=
        ih (a + 1) (lastErrorOf t .timeoutErr) (calls + 1) (sleeps ++ [a * 2]) m hm hwin
      refine ⟨le2, ?_⟩
      rw [hrange]
      simp only [retryGo, hv, hrestne, Bool.false_eq_true, if_false]
      rw [h2, harith]
    | connectionErr msg =>
      obtain ⟨le2, h2⟩ :=
        ih (a + 1) (lastErrorOf t (.connectionErr msg)) (calls + 1) (sleeps ++ [a * 2]) m hm hwin
      refine ⟨le2, ?_⟩
      rw [hrange]
      simp only [retryGo, hv, hrestne, Bool.false_eq_true, if_false]
      rw [h2, harith]
    | unexpectedErr msg =>
      obtain ⟨le2, h2⟩ :=
        ih (a + 1) (lastErrorOf t (.unexpectedErr msg)) (calls + 1) (sleeps ++ [a * 2]) m hm hwin
      refine ⟨le2, ?_⟩
      rw [hrange]
      simp only [retryGo, hv, hrestne, Bool.false_eq_true, if_false]
      rw [h2, harith]

/-- A non-empty attempt range starts with its first attempt. -/
theorem range'_cons_of_pos (s n : Nat) (h : 1 ≤ n) :
    List.range' s n = s :: List.range' (s + 1) (n - 1) := by
  cases n with
  | zero => omega
  | succ k => simp [List.range'_succ]

/-- With all preconditions passing, `process_receipt_image` is the retry loop
over attempts `1..maxRetries`. -/
theorem process_ok_unfold (loads : String → Option Json) (f : Nat → AttemptOutcome)
    (maxRetries timeoutSec : Nat) :
    process_receipt_image okCfg loads f maxRetries timeoutSec =
      retryGo loads f timeoutSec (List.range' 1 maxRetries) none 0 [] := rfl

/-- C2: (a) when every attempt fails with a spec-retryable error (per-call
timeout or connection/transport error), exactly `maxRetries` calls are made,
a sleep of `n * 2` seconds follows every attempt `n < maxRetries`, and the run
fails exhausted carrying the last attempt's error message; (b) an `APIError`
on the first attempt makes exactly one call, no sleep, and fails immediately;
(c) so does an unparseable first response; (d) a missing API key fails with no
call and no sleep at all. -/
theorem C2_retry_classification (loads : String → Option Json) (f : Nat → AttemptOutcome)
    (maxRetries timeoutSec : Nat) (hmax : 1 ≤ maxRetries) :
    ((∀ n, 1 ≤ n → n ≤ maxRetries → claimRetryable (f n) = true) →
      process_receipt_image okCfg loads f maxRetries timeoutSec =
        ⟨maxRetries, (List.range' 1 (maxRetries - 1)).map (fun n => n * 2),
          .error (.exhausted (lastErrorOf timeoutSec (f maxRetries)))⟩)
    ∧ (∀ m, f 1 = .apiErr m →
        process_receipt_image okCfg loads f maxRetries timeoutSec =
          ⟨1, [], .error (.apiError m)⟩)
    ∧ (∀ s, f 1 = .success s → parse_ocr_response loads s = .error () →
        process_receipt_image okCfg loads f maxRetries timeoutSec =
          ⟨1, [], .error .parseError⟩)
    ∧ (∀ cfg : OcrConfig, cfg.apiKeyConfigured = false →
        process_receipt_image cfg loads f maxRetries timeoutSec =
          ⟨0, [], .error .notConfigured⟩) := by
  refine ⟨?_, ?_, ?_, ?_⟩
  · intro hall
    rw [process_ok_unfold]
    obtain ⟨le2, h⟩ := retryGo_skip loads f timeoutSec (maxRetries - 1) 1 none 0 [] 1 le_rfl
      (fun n h1 h2 => retriesOn_of_claimRetryable _ (hall n h1 (by omega)))
    have e1 : (maxRetries - 1) + 1 = maxRetries := by omega
    have e2 : 1 + (maxRetries - 1) = maxRetries := by omega
    rw [e1, e2] at h
    rw [h, range'_cons_of_pos maxRetries 1 le_rfl]
    have hlast : claimRetryable (f maxRetries) = true := hall maxRetries hmax le_rfl
    have ecalls : 0 + (maxRetries - 1) + 1 = maxRetries := by omega
    cases hv : f maxRetries with
    | success s => rw [hv] at hlast; simp [claimRetryable] at hlast
    | emptyContent => rw [hv] at hlast; simp [claimRetryable] at hlast
    | apiErr m => rw [hv] at hlast; simp [claimRetryable] at hlast
    | unexpectedErr m => rw [hv] at hlast; simp [claimRetryable] at hlast
    | timeoutErr => simp [retryGo, hv, e1, ecalls]
    | connectionErr m => simp [retryGo, hv, e1, ecalls]
  · intro m hm
    rw [process_ok_unfold, range'_cons_of_pos 1 maxRetries hmax]
    simp [retryGo, hm]
  · intro s hs hp
    rw [process_ok_unfold, range'_cons_of_pos 1 maxRetries hmax]
    simp [retryGo, hs, hp]
  · intro cfg hcfg
    simp [process_receipt_image, hcfg]

/-- Witness for C2: with the default three attempts, all-connection-errors
makes three calls with sleeps of 2 then 4 seconds and carries the last
message; an `APIError` on attempt 1 makes one call and no sleep; a missing
API key makes no call. -/
theorem C2_witness :
    process_receipt_image okCfg loadsNone (fun _ => .connectionErr "x") 3 30 =
      ⟨3, [2, 4], .error (.exhausted (some "API 연결 오류: x"))⟩
    ∧ process_receipt_image okCfg loadsNone (fun _ => .apiErr "quota") 3 30 =
      ⟨1, [], .error (.apiError "quota")⟩
    ∧ process_receipt_image ⟨false, true, true, "p.jpg"⟩ loadsNone
        (fun _ => .connectionErr "x") 3 30 = ⟨0, [], .error .notConfigured⟩ := by
  refine ⟨?_, ?_, ?_⟩
  · have h := (C2_retry_classification loadsNone (fun _ => .connectionErr "x") 3 30
      (by omega)).1 (fun n _ _ => rfl)
    rw [h]
    rfl
  · exact (C2_retry_classification loadsNone (fun _ => .apiErr "quota") 3 30
      (by omega)).2.1 "quota" rfl
  · exact (C2_retry_classification loadsNone (fun _ => .connectionErr "x") 3 30
      (by omega)).2.2.2 ⟨false, true, true, "p.jpg"⟩ rfl

/-- C7: when attempt 1 fails with a spec-retryable error and attempt 2
succeeds with a parseable response, the run returns exactly the sanitized
result of attempt 2, makes exactly two calls (no third attempt), and sleeps
exactly once, for `1 * 2 = 2` seconds (the base delay). -/
theorem C7_second_attempt_success (loads : String → Option Json)
    (f : Nat → AttemptOutcome) (maxRetries timeoutSec : Nat) (s : String) (r : OcrResult)
    (hmax : 2 ≤ maxRetries) (h1 : claimRetryable (f 1) = true)
    (h2 : f 2 = .success s) (hp : parse_ocr_response loads s = .ok r) :
    process_receipt_image okCfg loads f maxRetries timeoutSec = ⟨2, [2], .ok r⟩ := by
  rw [process_ok_unfold]
  obtain ⟨le2, h⟩ := retryGo_skip loads f timeoutSec 1 1 none 0 [] (maxRetries - 1)
    (by omega)
    (fun n hn1 hn2 => by
      have hn : n = 1 := by omega
      subst hn
      exact retriesOn_of_claimRetryable _ h1)
  have e1 : 1 + (maxRetries - 1) = maxRetries := by omega
  rw [e1] at h
  rw [h, range'_cons_of_pos (1 + 1) (maxRetries - 1) (by omega)]
  simp [retryGo, h2, hp, List.range'_succ]

/-- A `json.loads` oracle that parses the empty JSON object. -/
def loadsEmptyObj : String → Option Json :=
  fun s => if s = "\x7b\x7d" then some (.obj []) else none

/-- Witness for C7: timeout on attempt 1, an empty-object response on
attempt 2. -/
theorem C7_witness :
    process_receipt_image okCfg loadsEmptyObj
      (fun n => if n = 1 then .timeoutErr else .success "\x7b\x7d") 3 30 =
      ⟨2, [2], .ok (sanitizeFields [])⟩ :=
  C7_second_attempt_success loadsEmptyObj
    (fun n => if n = 1 then .timeoutErr else .success "\x7b\x7d") 3 30 "\x7b\x7d"
    (sanitizeFields []) (by omega) rfl rfl rfl

/-- C9: if attempts `1..k-1` fail with loop-retryable errors and attempt `k`
returns empty or missing message content, the run fails immediately with the
empty-response `ValueError`: exactly `k` calls are made (no further attempts,
however many remain) and only the `k-1` sleeps of the earlier attempts occur
(no backoff after the empty response). -/
theorem C9_empty_content_fatal (loads : String → Option Json)
    (f : Nat → AttemptOutcome) (maxRetries timeoutSec k : Nat)
    (hk1 : 1 ≤ k) (hk2 : k ≤ maxRetries)
    (hpre : ∀ n, 1 ≤ n → n < k → retriesOn (f n) = true)
    (hk : f k = .emptyContent) :
    process_receipt_image okCfg loads f maxRetries timeoutSec =
      ⟨k, (List.range' 1 (k - 1)).map (fun n => n * 2), .error .emptyResponse⟩ := by
  rw [process_ok_unfold]
  obtain ⟨le2, h⟩ := retryGo_skip loads f timeoutSec (k - 1) 1 none 0 []
    (maxRetries - k + 1) (by omega) (fun n hn1 hn2 => hpre n hn1 (by omega))
  have e1 : (k - 1) + (maxRetries - k + 1) = maxRetries := by omega
  have e2 : 1 + (k - 1) = k := by omega
  rw [e1, e2] at h
  rw [h, range'_cons_of_pos k (maxRetries - k + 1) (by omega)]
  have ecalls : 0 + (k - 1) + 1 = k := by omega
  simp [retryGo, hk, ecalls]
  omega

/-- Witness for C9: a connection error on attempt 1, an empty response on
attempt 2 of 3 — two calls, one sleep, immediate fatal failure. -/
theorem C9_witness :
    process_receipt_image okCfg loadsNone
      (fun n => if n = 1 then .connectionErr "x" else .emptyContent) 3 30 =
      ⟨2, [2], .error .emptyResponse⟩ := by
  have h := C9_empty_content_fatal loadsNone
    (fun n => if n = 1 then .connectionErr "x" else .emptyContent) 3 30 2
    (by omega) (by omega)
    (fun n hn1 hn2 => by
      have hn : n = 1 := by omega
      subst hn
      rfl)
    rfl
  rw [h]
  rfl

/-- The rejection condition of claim C6, stated in the spec's terms: filename
missing (or empty, which Python treats as missing), extension outside the
allow-set, a declared non-empty content type outside the allow-set, an empty
body, or a body over the configured maximum size. -/
def invalidFileSpec (max_file_size : Nat) (file : PyUploadFile) : Prop :=
  file.filename = none ∨ file.filename = some "" ∨
  (∃ fn, file.filename = some fn ∧ get_file_extension fn ∉ ALLOWED_EXTENSIONS) ∨
  (∃ ct, file.content_type = some ct ∧ ct ≠ "" ∧ ct ∉ ALLOWED_MIME_TYPES) ∨
  file.size = 0 ∨ file.size > max_file_size

/-- C6: `save_uploaded_file` rejects with a 400 `InvalidFile` error exactly
when the spec's rejection condition holds, and every rejection happens before
the write, leaving the storage unchanged. -/
theorem C6_save_rejects_iff (max_file_size : Nat)
    (upload_dir year month timestamp : String) (st : Storage) (file : PyUploadFile) :
    ((∃ e, (save_uploaded_file max_file_size upload_dir year month timestamp st file).1 =
        .error e ∧ e.status = 400) ↔ invalidFileSpec max_file_size file)
    ∧ (∀ e, (save_uploaded_file max_file_size upload_dir year month timestamp st file).1 =
        .error e →
      (save_uploaded_file max_file_size upload_dir year month timestamp st file).2 = st) := by
  obtain ⟨fn?, ct?, size⟩ := file
  cases fn? with
  | none =>
    exact ⟨⟨fun _ => Or.inl rfl, fun _ => ⟨⟨400, "파일명이 없습니다."⟩, rfl, rfl⟩⟩,
      fun e _ => rfl⟩
  | some fn =>
    by_cases hfn : fn = ""
    · subst hfn
      refine ⟨⟨fun _ => Or.inr (Or.inl rfl), fun _ => ⟨⟨400, "파일명이 없습니다."⟩, ?_, rfl⟩⟩,
        fun e _ => ?_⟩ <;> simp [save_uploaded_file, validate_file]
    · by_cases hext : get_file_extension fn ∈ ALLOWED_EXTENSIONS
      · cases ct? with
        | some ct =>
          by_cases hct0 : ct = ""
          · subst hct0
            by_cases hbig : size > max_file_size
            · refine ⟨⟨fun _ => Or.inr (Or.inr (Or.inr (Or.inr (Or.inr hbig)))),
                fun _ => ⟨⟨400, "파일 크기가 너무 큽니다."⟩, ?_, rfl⟩⟩, fun e _ => ?_⟩ <;>
                simp [save_uploaded_file, validate_file, hfn, hext, hbig]
            · by_cases hzero : size = 0
              · refine ⟨⟨fun _ => Or.inr (Or.inr (Or.inr (Or.inr (Or.inl hzero)))),
                  fun _ => ⟨⟨400, "빈 파일은 업로드할 수 없습니다."⟩, ?_, rfl⟩⟩, fun e _ => ?_⟩ <;>
                  simp [save_uploaded_file, validate_file, hfn, hext, hbig, hzero]
              · constructor
                · constructor
                  · rintro ⟨e, he, _⟩
                    simp [save_uploaded_file, validate_file, hfn, hext, hbig, hzero] at he
                  · rintro (h | h | ⟨fn2, hfn2, h2⟩ | ⟨ct2, hct2, h2, h3⟩ | h | h)
                    · exact absurd h (by simp)
                    · simp at h
                      exact absurd h hfn
                    · simp at hfn2
                      subst hfn2
                      exact absurd hext h2
                    · simp at hct2
                      subst hct2
                      exact absurd rfl h2
                    · exact absurd h hzero
                    · exact absurd h hbig
                · intro e he
                  simp [save_uploaded_file, validate_file, hfn, hext, hbig, hzero] at he
          · by_cases hct : ct ∈ ALLOWED_MIME_TYPES
            · by_cases hbig : size > max_file_size
              · refine ⟨⟨fun _ => Or.inr (Or.inr (Or.inr (Or.inr (Or.inr hbig)))),
                  fun _ => ⟨⟨400, "파일 크기가 너무 큽니다."⟩, ?_, rfl⟩⟩, fun e _ => ?_⟩ <;>
                  simp [save_uploaded_file, validate_file, hfn, hext, hct, hbig]
              · by_cases hzero : size = 0
                · refine ⟨⟨fun _ => Or.inr (Or.inr (Or.inr (Or.inr (Or.inl hzero)))),
                    fun _ => ⟨⟨400, "빈 파일은 업로드할 수 없습니다."⟩, ?_, rfl⟩⟩, fun e _ => ?_⟩ <;>
                    simp [save_uploaded_file, validate_file, hfn, hext, hct, hbig, hzero]
                · constructor
                  · constructor
                    · rintro ⟨e, he, _⟩
                      simp [save_uploaded_file, validate_file, hfn, hext, hct, hbig, hzero] at he
                    · rintro (h | h | ⟨fn2, hfn2, h2⟩ | ⟨ct2, hct2, h2, h3⟩ | h | h)
                      · exact absurd h (by simp)
                      · simp at h
                        exact absurd h hfn
                      · simp at hfn2
                        subst hfn2
                        exact absurd hext h2
                      · simp at hct2
                        subst hct2
                        exact absurd hct h3
                      · exact absurd h hzero
                      · exact absurd h hbig
                  · intro e he
                    simp [save_uploaded_file, validate_file, hfn, hext, hct, hbig, hzero] at he
            · refine ⟨⟨fun _ => Or.inr (Or.inr (Or.inr (Or.inl ⟨ct, rfl, hct0, hct⟩))),
                fun _ => ⟨⟨400, "허용되지 않는 MIME 타입입니다: " ++ ct⟩, ?_, rfl⟩⟩, fun e _ => ?_⟩ <;>
                simp [save_uploaded_file, validate_file, hfn, hext, hct0, hct]
        | none =>
          by_cases hbig : size > max_file_size
          · refine ⟨⟨fun _ => Or.inr (Or.inr (Or.inr (Or.inr (Or.inr hbig)))),
              fun _ => ⟨⟨400, "파일 크기가 너무 큽니다."⟩, ?_, rfl⟩⟩, fun e _ => ?_⟩ <;>
              simp [save_uploaded_file, validate_file, hfn, hext, hbig]
          · by_cases hzero : size = 0
            · refine ⟨⟨fun _ => Or.inr (Or.inr (Or.inr (Or.inr (Or.inl hzero)))),
                fun _ => ⟨⟨400, "빈 파일은 업로드할 수 없습니다."⟩, ?_, rfl⟩⟩, fun e _ => ?_⟩ <;>
                simp [save_uploaded_file, validate_file, hfn, hext, hbig, hzero]
            · constructor
              · constructor
                · rintro ⟨e, he, _⟩
                  simp [save_uploaded_file, validate_file, hfn, hext, hbig, hzero] at he
                · rintro (h | h | ⟨fn2, hfn2, h2⟩ | ⟨ct2, hct2, h2, h3⟩ | h | h)
                  · exact absurd h (by simp)
                  · simp at h
                    exact absurd h hfn
                  · simp at hfn2
                    subst hfn2
                    exact absurd hext h2
                  · exact absurd hct2 (by simp)
                  · exact absurd h hzero
                  · exact absurd h hbig
              · intro e he
                simp [save_uploaded_file, validate_file, hfn, hext, hbig, hzero] at he
      · refine ⟨⟨fun _ => Or.inr (Or.inr (Or.inl ⟨fn, rfl, hext⟩)),
          fun _ => ⟨⟨400, "허용되지 않는 파일 형식입니다."⟩, ?_, rfl⟩⟩, fun e _ => ?_⟩ <;>
          simp [save_uploaded_file, validate_file, hfn, hext]

/-- Witness for C6: a disallowed extension is rejected with no storage write,
via the two directions of the theorem. -/
theorem C6_witness :
    invalidFileSpec 10485760 ⟨some "virus.exe", none, 10⟩
    ∧ (save_uploaded_file 10485760 "./uploads" "2024" "01" "20240101_000000"
        ⟨[]⟩ ⟨some "virus.exe", none, 10⟩).2 = ⟨[]⟩ :=
  ⟨(C6_save_rejects_iff 10485760 "./uploads" "2024" "01" "20240101_000000"
      ⟨[]⟩ ⟨some "virus.exe", none, 10⟩).1.mp
      ⟨⟨400, "허용되지 않는 파일 형식입니다."⟩, rfl, rfl⟩,
   (C6_save_rejects_iff 10485760 "./uploads" "2024" "01" "20240101_000000"
      ⟨[]⟩ ⟨some "virus.exe", none, 10⟩).2 ⟨400, "허용되지 않는 파일 형식입니다."⟩ rfl⟩
